import Mathlib

/-!
Verification of the DueDesk backend's payment logic
(duedesk-backend/index.js) against its design specification.

The business logic is modelled over the rationals: the backend stores the
two monetary fields as REAL columns and manipulates them with ordinary
arithmetic and order comparisons only, so ℚ is the faithful idealisation.
Strings are kept as strings, exactly as the code produces them.
-/

namespace DueDesk

/-- A customer record's two monetary fields (columns `amountToPay` and
`amountPaid` of the `customers` table); the identity fields play no role
in the payment logic. -/
structure Customer where
  amountToPay : ℚ
  amountPaid : ℚ
deriving Repr, DecidableEq

/-- The derived view produced by `calculateCustomerDetails`
(index.js lines 34-54): the record's two monetary fields together with
the four derived fields. -/
structure CustomerDetails where
  amountToPay : ℚ
  amountPaid : ℚ
  amountRemaining : ℚ
  overpayment : ℚ
  paymentStatus : String
  paymentPercentage : ℚ
deriving Repr, DecidableEq

/-- `calculateCustomerDetails` (index.js lines 34-54), embedded clause by
clause: `Math.max(0, ...)` for the remaining and overpayment amounts, the
`if / else if / else` chain for the status string, and the conditional
expression for the percentage. -/
def calculateCustomerDetails (customer : Customer) : CustomerDetails :=
  let amountRemaining := max 0 (customer.amountToPay - customer.amountPaid)
  let overpayment := max 0 (customer.amountPaid - customer.amountToPay)
  let paymentStatus :=
    if customer.amountPaid = 0 then
      "Not Paid"
    else if customer.amountPaid ≥ customer.amountToPay then
      (if customer.amountPaid > customer.amountToPay then "Overpaid" else "Paid")
    else
      "Partially Paid"
  { amountToPay := customer.amountToPay
    amountPaid := customer.amountPaid
    amountRemaining := amountRemaining
    overpayment := overpayment
    paymentStatus := paymentStatus
    paymentPercentage :=
      if customer.amountToPay > 0 then
        min 100 (customer.amountPaid / customer.amountToPay * 100)
      else 0 }

example : (calculateCustomerDetails ⟨100, 0⟩).paymentStatus = "Not Paid" := by decide
example : (calculateCustomerDetails ⟨100, 50⟩).paymentStatus = "Partially Paid" := by decide
example : (calculateCustomerDetails ⟨100, 100⟩).paymentStatus = "Paid" := by decide
example : (calculateCustomerDetails ⟨100, 150⟩).paymentStatus = "Overpaid" := by decide
example : (calculateCustomerDetails ⟨0, 0⟩).paymentStatus = "Not Paid" := by decide
example : (calculateCustomerDetails ⟨100, 150⟩).overpayment = 50 := by
  norm_num [calculateCustomerDetails]
example : (calculateCustomerDetails ⟨100, 50⟩).paymentPercentage = 50 := by
  norm_num [calculateCustomerDetails]

/-- The payment-mutation computation of the PATCH `/api/customers/:id/payment`
handler (index.js lines 413-418): `paymentType === 'set'` replaces the
stored amount, everything else falls into the `add` branch. -/
def newAmountPaid (currentAmountPaid paymentAmount : ℚ) (paymentType : String) : ℚ :=
  if paymentType = "set" then paymentAmount
  else currentAmountPaid + paymentAmount

/-- The whole payment-mutation logic of the PATCH handler for an existing
customer: the validation guard of index.js lines 392-397 rejects (returns
`none`, a 400 ValidationError) exactly when `paymentAmount < 0` (the
`typeof` check is subsumed by the ℚ type); otherwise the new `amountPaid`
is computed by lines 413-418, with `paymentType` defaulting to `"add"`
when absent (the destructuring default of line 383). -/
def paymentPatchOutcome (currentAmountPaid paymentAmount : ℚ)
    (paymentType : Option String) : Option ℚ :=
  if paymentAmount < 0 then none
  else some (newAmountPaid currentAmountPaid paymentAmount (paymentType.getD "add"))

/-- The per-bucket count of the aggregators (index.js lines 320-325 in
GET `/api/customers` and lines 507-512 in GET `/api/dashboard/summary`):
run every record through the calculator, keep those whose
`paymentStatus` equals the given string, and count them. -/
def statusCount (customers : List Customer) (status : String) : ℕ :=
  ((customers.map calculateCustomerDetails).filter
    (fun c => c.paymentStatus == status)).length

/-- The total record count reported by both aggregators
(`totalCustomers`, index.js lines 314 and 502): the length of the list of
calculated records. -/
def totalCustomers (customers : List Customer) : ℕ :=
  (customers.map calculateCustomerDetails).length

/-- `collectionEfficiency` as accumulated by the dashboard summary
(index.js lines 517-518): the mean of the records' `paymentPercentage`,
or 0 for an empty list. -/
def collectionEfficiency (customers : List Customer) : ℚ :=
  let details := customers.map calculateCustomerDetails
  if 0 < details.length then
    (details.map (fun c => c.paymentPercentage)).sum / details.length
  else 0

/-- JavaScript's `Math.round`: round half up, i.e. `⌊x + 1/2⌋`. -/
def mathRound (x : ℚ) : ℚ := (⌊x + 1 / 2⌋ : ℤ)

/-- `Math.round(x * 100) / 100`, the 2-decimal rounding applied at the
response boundary (index.js lines 522-525). -/
def round2 (x : ℚ) : ℚ := mathRound (x * 100) / 100

/-- The `collectionEfficiency` field actually present in the dashboard
summary response: the accumulated mean after the rounding of
index.js line 525. -/
def summaryCollectionEfficiency (customers : List Customer) : ℚ :=
  round2 (collectionEfficiency customers)

/-- C1. For every input pair with `amountToPay ≥ 0` and `amountPaid ≥ 0`,
the calculator returns `paymentStatus` "Not Paid" when `amountPaid = 0`
(including the pair `(0, 0)`), "Partially Paid" when
`0 < amountPaid < amountToPay`, "Paid" when `amountPaid = amountToPay`
with `amountToPay > 0`, and "Overpaid" when `amountPaid > amountToPay`. -/
theorem paymentStatus_spec (toPay paid : ℚ) (h1 : 0 ≤ toPay) (h2 : 0 ≤ paid) :
    (paid = 0 → (calculateCustomerDetails ⟨toPay, paid⟩).paymentStatus = "Not Paid") ∧
    (0 < paid → paid < toPay →
      (calculateCustomerDetails ⟨toPay, paid⟩).paymentStatus = "Partially Paid") ∧
    (paid = toPay → 0 < toPay →
      (calculateCustomerDetails ⟨toPay, paid⟩).paymentStatus = "Paid") ∧
    (toPay < paid →
      (calculateCustomerDetails ⟨toPay, paid⟩).paymentStatus = "Overpaid") := by
  refine ⟨fun hz => ?_, fun hp hlt => ?_, fun he hpos => ?_, fun hover => ?_⟩ <;>
    simp only [calculateCustomerDetails] <;>
    split_ifs <;> first | rfl | (exfalso; linarith)

/-- Witness for C1 at the spec's example `(amountToPay, amountPaid) = (100, 50)`. -/
theorem paymentStatus_spec_witness :
    (0:ℚ) ≤ 100 ∧ (0:ℚ) ≤ 50 ∧
      (calculateCustomerDetails ⟨100, 50⟩).paymentStatus = "Partially Paid" :=
  ⟨by norm_num, by norm_num,
    (paymentStatus_spec 100 50 (by norm_num) (by norm_num)).2.1 (by norm_num) (by norm_num)⟩

/-- C3. For every non-negative input pair the four defining conditions are
collectively exhaustive and pairwise mutually exclusive, and the
calculator's status is always one of the four strings (a total function
with no error outcome). -/
theorem paymentStatus_total (toPay paid : ℚ) (h1 : 0 ≤ toPay) (h2 : 0 ≤ paid) :
    (paid = 0 ∨ (0 < paid ∧ paid < toPay) ∨ (paid = toPay ∧ 0 < toPay) ∨ toPay < paid) ∧
    ¬(paid = 0 ∧ (0 < paid ∧ paid < toPay)) ∧
    ¬(paid = 0 ∧ (paid = toPay ∧ 0 < toPay)) ∧
    ¬(paid = 0 ∧ toPay < paid) ∧
    ¬((0 < paid ∧ paid < toPay) ∧ (paid = toPay ∧ 0 < toPay)) ∧
    ¬((0 < paid ∧ paid < toPay) ∧ toPay < paid) ∧
    ¬((paid = toPay ∧ 0 < toPay) ∧ toPay < paid) ∧
    (calculateCustomerDetails ⟨toPay, paid⟩).paymentStatus ∈
      (["Not Paid", "Partially Paid", "Paid", "Overpaid"] : List String) := by
  refine ⟨?_, ?_, ?_, ?_, ?_, ?_, ?_, ?_⟩
  · rcases eq_or_lt_of_le h2 with hz | hp
    · exact Or.inl hz.symm
    · rcases lt_trichotomy paid toPay with hlt | heq | hgt
      · exact Or.inr (Or.inl ⟨hp, hlt⟩)
      · exact Or.inr (Or.inr (Or.inl ⟨heq, heq ▸ hp⟩))
      · exact Or.inr (Or.inr (Or.inr hgt))
  · rintro ⟨hz, hp, -⟩; linarith
  · rintro ⟨hz, he, hpos⟩; linarith [he ▸ hpos]
  · rintro ⟨hz, hover⟩; linarith
  · rintro ⟨⟨-, hlt⟩, he, -⟩; linarith [he ▸ hlt]
  · rintro ⟨⟨-, hlt⟩, hover⟩; linarith
  · rintro ⟨⟨he, -⟩, hover⟩; linarith [he ▸ hover]
  · simp only [calculateCustomerDetails]
    split_ifs <;> simp

/-- Witness for C3 at `(amountToPay, amountPaid) = (100, 50)`. -/
theorem paymentStatus_total_witness :
    (0:ℚ) ≤ 100 ∧ (0:ℚ) ≤ 50 ∧
      (calculateCustomerDetails ⟨100, 50⟩).paymentStatus ∈
        (["Not Paid", "Partially Paid", "Paid", "Overpaid"] : List String) :=
  ⟨by norm_num, by norm_num,
    (paymentStatus_total 100 50 (by norm_num) (by norm_num)).2.2.2.2.2.2.2⟩

/-- C4. For every non-negative input pair, `paymentPercentage` is 0 when
`amountToPay = 0`, and `min 100 (amountPaid / amountToPay * 100)`
otherwise; consequently it always lies in `[0, 100]`. -/
theorem paymentPercentage_spec (toPay paid : ℚ) (h1 : 0 ≤ toPay) (h2 : 0 ≤ paid) :
    (toPay = 0 → (calculateCustomerDetails ⟨toPay, paid⟩).paymentPercentage = 0) ∧
    (toPay ≠ 0 → (calculateCustomerDetails ⟨toPay, paid⟩).paymentPercentage
      = min 100 (paid / toPay * 100)) ∧
    0 ≤ (calculateCustomerDetails ⟨toPay, paid⟩).paymentPercentage ∧
    (calculateCustomerDetails ⟨toPay, paid⟩).paymentPercentage ≤ 100 := by
  have hq : (calculateCustomerDetails ⟨toPay, paid⟩).paymentPercentage
      = if toPay > 0 then min 100 (paid / toPay * 100) else 0 := rfl
  refine ⟨fun hz => ?_, fun hnz => ?_, ?_, ?_⟩
  · rw [hq, if_neg (by rw [hz]; exact lt_irrefl 0)]
  · rw [hq, if_pos (lt_of_le_of_ne h1 (Ne.symm hnz))]
  · rw [hq]
    split_ifs with hpos
    · exact le_min (by norm_num) (by positivity)
    · exact le_refl 0
  · rw [hq]
    split_ifs with hpos
    · exact min_le_left _ _
    · norm_num

/-- Witness for C4 at `(amountToPay, amountPaid) = (100, 50)`. -/
theorem paymentPercentage_spec_witness :
    (0:ℚ) ≤ 100 ∧ (0:ℚ) ≤ 50 ∧
      (calculateCustomerDetails ⟨100, 50⟩).paymentPercentage = min 100 (50 / 100 * 100) ∧
      0 ≤ (calculateCustomerDetails ⟨100, 50⟩).paymentPercentage ∧
      (calculateCustomerDetails ⟨100, 50⟩).paymentPercentage ≤ 100 :=
  ⟨by norm_num, by norm_num,
    (paymentPercentage_spec 100 50 (by norm_num) (by norm_num)).2.1 (by norm_num),
    (paymentPercentage_spec 100 50 (by norm_num) (by norm_num)).2.2.1,
    (paymentPercentage_spec 100 50 (by norm_num) (by norm_num)).2.2.2⟩

/-- C5. For every non-negative input pair, the calculator returns
`amountRemaining = max 0 (amountToPay - amountPaid)` and
`overpayment = max 0 (amountPaid - amountToPay)`. -/
theorem amountRemaining_overpayment_spec (toPay paid : ℚ)
    (h1 : 0 ≤ toPay) (h2 : 0 ≤ paid) :
    (calculateCustomerDetails ⟨toPay, paid⟩).amountRemaining = max 0 (toPay - paid) ∧
    (calculateCustomerDetails ⟨toPay, paid⟩).overpayment = max 0 (paid - toPay) :=
  ⟨rfl, rfl⟩

/-- Witness for C5 at the spec's example `(100, 150)`:
remaining 0, overpayment 50. -/
theorem amountRemaining_overpayment_spec_witness :
    (0:ℚ) ≤ 100 ∧ (0:ℚ) ≤ 150 ∧
      (calculateCustomerDetails ⟨100, 150⟩).amountRemaining = 0 ∧
      (calculateCustomerDetails ⟨100, 150⟩).overpayment = 50 := by
  have h := amountRemaining_overpayment_spec 100 150 (by norm_num) (by norm_num)
  exact ⟨by norm_num, by norm_num, by rw [h.1]; norm_num, by rw [h.2]; norm_num⟩

/-- C6. For every non-negative input pair, `amountRemaining` and
`overpayment` are never both strictly positive; when
`amountPaid ≤ amountToPay` we have
`amountRemaining + amountPaid ≥ amountToPay`, and otherwise
`amountRemaining = 0`. -/
theorem amountRemaining_overpayment_relations (toPay paid : ℚ)
    (h1 : 0 ≤ toPay) (h2 : 0 ≤ paid) :
    ¬(0 < (calculateCustomerDetails ⟨toPay, paid⟩).amountRemaining ∧
      0 < (calculateCustomerDetails ⟨toPay, paid⟩).overpayment) ∧
    (paid ≤ toPay →
      toPay ≤ (calculateCustomerDetails ⟨toPay, paid⟩).amountRemaining + paid) ∧
    (toPay < paid → (calculateCustomerDetails ⟨toPay, paid⟩).amountRemaining = 0) := by
  have hr : (calculateCustomerDetails ⟨toPay, paid⟩).amountRemaining
      = max 0 (toPay - paid) := rfl
  have ho : (calculateCustomerDetails ⟨toPay, paid⟩).overpayment
      = max 0 (paid - toPay) := rfl
  refine ⟨?_, fun hle => ?_, fun hgt => ?_⟩
  · rintro ⟨hpr, hpo⟩
    rw [hr, lt_max_iff] at hpr
    rw [ho, lt_max_iff] at hpo
    rcases hpr with h | h
    · exact lt_irrefl 0 h
    · rcases hpo with h' | h'
      · exact lt_irrefl 0 h'
      · linarith
  · rw [hr]
    have : toPay - paid ≤ max 0 (toPay - paid) := le_max_right _ _
    linarith
  · rw [hr, max_eq_left (by linarith)]

/-- Witness for C6 at `(amountToPay, amountPaid) = (100, 30)`. -/
theorem amountRemaining_overpayment_relations_witness :
    (0:ℚ) ≤ 100 ∧ (0:ℚ) ≤ 30 ∧ (30:ℚ) ≤ 100 ∧
      ¬(0 < (calculateCustomerDetails ⟨100, 30⟩).amountRemaining ∧
        0 < (calculateCustomerDetails ⟨100, 30⟩).overpayment) ∧
      (100:ℚ) ≤ (calculateCustomerDetails ⟨100, 30⟩).amountRemaining + 30 := by
  have h := amountRemaining_overpayment_relations 100 30 (by norm_num) (by norm_num)
  exact ⟨by norm_num, by norm_num, by norm_num, h.1, h.2.1 (by norm_num)⟩

/-- C2. The PATCH payment validation guard (index.js line 392) checks
`paymentAmount < 0`, not `paymentAmount <= 0`: a request with
`paymentAmount = 0` passes validation and the update runs, contrary to
the spec ("`paymentAmount <= 0` is rejected") and to the guard's own
error message ("Payment amount must be a positive number"). Evaluated at
the failing input: a `set` of 0 on a record with `amountPaid = 50` is
accepted and overwrites the stored amount with 0, and an `add` of 0 is
accepted as well. -/
theorem paymentPatch_accepts_zero :
    paymentPatchOutcome 50 0 (some "set") = some 0 ∧
      paymentPatchOutcome 50 0 none = some 50 := by
  constructor <;> simp [paymentPatchOutcome, newAmountPaid]

/-- C7. For every accepted payment-mutation on an existing record,
`paymentType` "add" yields `currentAmountPaid + paymentAmount` and
`paymentType` "set" yields `paymentAmount` regardless of the prior
value. -/
theorem paymentMutation_add_set (current amount : ℚ) (h : 0 < amount) :
    paymentPatchOutcome current amount (some "add") = some (current + amount) ∧
      paymentPatchOutcome current amount (some "set") = some amount := by
  have hnn : ¬ amount < 0 := not_lt.mpr h.le
  constructor <;> simp [paymentPatchOutcome, newAmountPaid, hnn]

/-- Witness for C7 at the spec's example: adding 30 to `amountPaid = 50`
yields 80, setting 30 yields 30. -/
theorem paymentMutation_add_set_witness :
    (0:ℚ) < 30 ∧ paymentPatchOutcome 50 30 (some "add") = some 80 ∧
      paymentPatchOutcome 50 30 (some "set") = some 30 := by
  have h := paymentMutation_add_set 50 30 (by norm_num)
  exact ⟨by norm_num, by rw [h.1]; norm_num, h.2⟩

/-- C10. For every payment-mutation request on an existing customer with
a non-negative amount, any `paymentType` other than the exact string
"set" — including an omitted `paymentType`, which defaults to "add" via
the destructuring default of index.js line 383 — takes the `add` branch,
and the request is never rejected for an invalid `paymentType`. -/
theorem paymentType_defaults_to_add (current amount : ℚ) (pt : Option String)
    (h1 : 0 ≤ amount) (h2 : pt ≠ some "set") :
    paymentPatchOutcome current amount pt = some (current + amount) := by
  have hnn : ¬ amount < 0 := not_lt.mpr h1
  cases pt with
  | none => simp [paymentPatchOutcome, newAmountPaid, hnn]
  | some s =>
      have hs : s ≠ "set" := fun he => h2 (by rw [he])
      simp [paymentPatchOutcome, newAmountPaid, hnn, hs]

/-- Witness for C10: an unrecognized `paymentType` "bogus" and an omitted
`paymentType` both behave as "add". -/
theorem paymentType_defaults_to_add_witness :
    (0:ℚ) ≤ 30 ∧ (some "bogus" : Option String) ≠ some "set" ∧
      (none : Option String) ≠ some "set" ∧
      paymentPatchOutcome 50 30 (some "bogus") = some 80 ∧
      paymentPatchOutcome 50 30 none = some 80 := by
  refine ⟨by norm_num, by simp, by simp, ?_, ?_⟩
  · rw [paymentType_defaults_to_add 50 30 (some "bogus") (by norm_num) (by simp)]
    norm_num
  · rw [paymentType_defaults_to_add 50 30 none (by norm_num) (by simp)]
    norm_num

/-- The calculator's status is always one of the four bucket strings
(helper for the aggregation proof). -/
lemma paymentStatus_mem_buckets (c : Customer) :
    (calculateCustomerDetails c).paymentStatus = "Not Paid" ∨
    (calculateCustomerDetails c).paymentStatus = "Partially Paid" ∨
    (calculateCustomerDetails c).paymentStatus = "Paid" ∨
    (calculateCustomerDetails c).paymentStatus = "Overpaid" := by
  simp only [calculateCustomerDetails]
  split_ifs <;> simp

/-- C8. For every sequence of customer records, the four status-bucket
counts of the aggregators sum to the total record count reported over
the same sequence. -/
theorem statusCounts_sum_to_total (customers : List Customer) :
    statusCount customers "Not Paid" + statusCount customers "Partially Paid" +
      statusCount customers "Paid" + statusCount customers "Overpaid"
      = totalCustomers customers := by
  induction customers with
  | nil => rfl
  | cons c cs ih =>
      simp only [statusCount, totalCustomers, List.map_cons, List.filter_cons,
        List.length_cons] at ih ⊢
      rcases paymentStatus_mem_buckets c with h | h | h | h <;>
        simp +decide [h] at ih ⊢ <;> omega

/-- C9 counterexample. The dashboard's reported `collectionEfficiency` is
rounded to two decimals at the response boundary (index.js line 525), so
it does not equal the exact arithmetic mean of the records'
`paymentPercentage`: for the single record `(amountToPay, amountPaid)
= (3, 1)` the mean is `100/3` but the reported value is `33.33`. -/
theorem collectionEfficiency_not_exact_mean :
    summaryCollectionEfficiency [⟨3, 1⟩] ≠
      (([(⟨3, 1⟩ : Customer)].map
          (fun c => (calculateCustomerDetails c).paymentPercentage)).sum)
        / ([(⟨3, 1⟩ : Customer)].length) := by
  have hpct : (calculateCustomerDetails ⟨3, 1⟩).paymentPercentage = 100 / 3 := by
    norm_num [calculateCustomerDetails]
  have hfloor : ⌊(100 : ℚ) / 3 / 1 * 100 + 1 / 2⌋ = 3333 := by
    rw [Int.floor_eq_iff] ; norm_num
  simp only [summaryCollectionEfficiency, collectionEfficiency, round2, mathRound,
    List.map_cons, List.map_nil, List.sum_cons, List.sum_nil, List.length_cons,
    List.length_nil, hpct]
  norm_num [hfloor]

/-- C9 amended. The dashboard's reported `collectionEfficiency` equals the
arithmetic mean of the records' `paymentPercentage` rounded to two
decimal places with JavaScript's `Math.round(x * 100) / 100`, and equals
0 when the record sequence is empty. -/
theorem collectionEfficiency_is_rounded_mean (customers : List Customer) :
    summaryCollectionEfficiency customers =
      if 0 < customers.length then
        ((⌊((customers.map (fun c => (calculateCustomerDetails c).paymentPercentage)).sum
            / customers.length) * 100 + 1 / 2⌋ : ℤ) : ℚ) / 100
      else 0 := by
  simp only [summaryCollectionEfficiency, collectionEfficiency, round2, mathRound,
    List.length_map, List.map_map, Function.comp_def]
  split_ifs with h
  · rfl
  · have : ⌊(0 : ℚ) * 100 + 1 / 2⌋ = 0 := by
      rw [Int.floor_eq_iff] ; norm_num
    rw [this]
    norm_num

end DueDesk
